import Mathlib

/-!
Shallow embedding of `src/bot.py` (a debt-collection voice agent built on a
streaming pipeline), covering the commitment-capture core: the
`OpenAILLMContext` conversation state, the `CollectionProcessor` handler
(constructor and `save_repayment_date` tool), the Firestore document update it
performs, and the connect/disconnect session handlers defined in `main`.

Modelling conventions:
* Python `float` amounts are modelled as `ℚ`; the core only passes them
  through (no arithmetic), so this is faithful.
* Message contents are f-strings; they are embedded as token lists
  (`CTok`): literal text segments verbatim from the source interleaved with
  the interpolated holes (amount, date, customer name).  Numeric formatting
  (`:,.2f`) is abstracted into the `CTok.amt` hole.
* The Firestore document store is an association list keyed by customer id.
  `update` on an absent document fails (Firestore NOT_FOUND); this is the
  modelled write-failure mode.  A Python exception that propagates out of the
  handler is modelled by an `error` field in the result together with the
  unchanged parts of the state (mutations textually after the raising
  statement did not happen).
* Side effects are recorded in an explicit `Event` trace in statement order;
  `logger` calls are observability only and are not traced.
-/

namespace Bot

/-- Role tag of a chat message. -/
inductive Role
| system
| user
| assistant
| tool
deriving DecidableEq, Repr

/-- Content token of an f-string message: literal text verbatim from the
source, or one of the interpolated holes (formatted amount, date string,
customer name). -/
inductive CTok
| lit (s : String)
| amt (a : ℚ)
| date (d : String)
| name (s : String)
deriving DecidableEq, Repr

/-- A chat message: role plus tokenized content. -/
structure Message where
  role : Role
  content : List CTok
deriving DecidableEq, Repr

/-- One property entry of the tool parameter schema. -/
structure ToolParamProp where
  name : String
  type : String
  description : String
deriving DecidableEq, Repr

/-- The `function` part of a tool schema: name, description, parameter
properties and the list of required parameter names. -/
structure ToolFunctionSchema where
  name : String
  description : String
  properties : List ToolParamProp
  required : List String
deriving DecidableEq, Repr

/-- A tool schema as installed via `context.set_tools` (`type` is always
`"function"` in the source). -/
structure ToolSchema where
  type : String
  function : ToolFunctionSchema
deriving DecidableEq, Repr

/-- The conversation context: ordered messages plus the active tool list
(`OpenAILLMContext` in the source; only the two members the core touches). -/
structure OpenAILLMContext where
  messages : List Message
  tools : List ToolSchema
deriving DecidableEq, Repr

/-- `context.add_message(m)`: append one message. -/
def OpenAILLMContext.add_message (c : OpenAILLMContext) (m : Message) : OpenAILLMContext :=
  { c with messages := c.messages ++ [m] }

/-- `context.set_tools(ts)`: replace the whole tool list. -/
def OpenAILLMContext.set_tools (c : OpenAILLMContext) (ts : List ToolSchema) : OpenAILLMContext :=
  { c with tools := ts }

/-- `context.messages.clear()` as performed by `on_client_connected`: empties
the message list and touches nothing else (in particular not `tools`). -/
def OpenAILLMContext.messages_clear (c : OpenAILLMContext) : OpenAILLMContext :=
  { c with messages := [] }

/-- One entry appended to `payment_history` by the commitment write; `date`
is the server-assigned timestamp. -/
structure PaymentEntry where
  date : ℕ
  promised_date : String
  promised_amount : ℚ
  status : String
deriving DecidableEq, Repr

/-- The fields of the per-customer Firestore document that the core writes.
`none` means the field is not set.  The document pre-exists per customer. -/
structure UserDoc where
  promised_repayment_date : Option String
  promised_amount : Option ℚ
  overdue_amount : Option ℚ
  commitment_made_at : Option ℕ
  last_contact : Option ℕ
  contact_type : Option String
  commitment_status : Option String
  payment_history : List PaymentEntry
deriving DecidableEq, Repr

/-- A document with no field set and empty history. -/
def emptyDoc : UserDoc :=
  ⟨none, none, none, none, none, none, none, []⟩

/-- The Persistent Record Store: documents keyed by customer id. -/
abbrev Store := List (String × UserDoc)

/-- Look up the document for a customer id. -/
def Store.lookup : Store → String → Option UserDoc
| [], _ => none
| (k, v) :: rest, cid => if k = cid then some v else Store.lookup rest cid

/-- Replace the document stored under `cid` (no-op when absent). -/
def Store.setDoc : Store → String → UserDoc → Store
| [], _, _ => []
| (k, v) :: rest, cid, d =>
  if k = cid then (k, d) :: rest else (k, v) :: Store.setDoc rest cid d

/-- `document(cid).update(f)`: Firestore `update` fails (NOT_FOUND) when the
document does not exist; otherwise it applies the merge `f`. -/
def Store.updateDoc (st : Store) (cid : String) (f : UserDoc → UserDoc) : Option Store :=
  match st.lookup cid with
  | none => none
  | some d => some (st.setDoc cid (f d))

/-- The merge payload of `user_ref.update({...})` in `save_repayment_date`:
sets the scalar fields (server timestamps for `commitment_made_at` and
`last_contact`), and `ArrayUnion` appends one history entry. -/
def applyCommitmentUpdate (d : String) (a : ℚ) (overdue : ℚ) (t : ℕ) (doc : UserDoc) : UserDoc :=
  { doc with
    promised_repayment_date := some d
    promised_amount := some a
    overdue_amount := some overdue
    commitment_made_at := some t
    last_contact := some t
    contact_type := some "phone_call"
    commitment_status := some "pending"
    payment_history := doc.payment_history ++ [⟨t, d, a, "pending"⟩] }

/-- Observable side effects, in statement order. -/
inductive Event
| firestoreUpdate (cid : String)
| ctxClearMessages
| ctxAddMessage
| ctxSetTools
| pushDownstream
| queueContextFrame
| queueEndFrame
deriving DecidableEq, Repr

/-- Whether an event is a Persistent Record Store write. -/
def isFirestoreWrite : Event → Bool
| Event.firestoreUpdate _ => true
| _ => false

/-- Whether a trace contains any store write. -/
def hasFirestoreWrite (evs : List Event) : Bool :=
  evs.any isFirestoreWrite

/-- Number of store writes in a trace. -/
def countWrites (evs : List Event) : ℕ :=
  (evs.filter isFirestoreWrite).length

/-- Whether every store write in a trace targets the document `cid`. -/
def writesOnlyTo (cid : String) (evs : List Event) : Bool :=
  evs.all fun e =>
    match e with
    | Event.firestoreUpdate c => c == cid
    | _ => true

/-- Tokenized content of the system prompt appended by the constructor
(literal text from the f-string, holes for the interpolated values). -/
def openingContent (customer_name : String) (overdue_amount : ℚ) : List CTok :=
  [ CTok.lit "You are Sarah from ABC Bank's collections department. You're calling regarding an overdue loan payment of ₹",
    CTok.amt overdue_amount,
    CTok.lit ".\nYou're speaking with ",
    CTok.name customer_name,
    CTok.lit ". Your job is to:\n1. Introduce yourself professionally and verify the customer's identity\n2. Inform them about their overdue payment of ₹",
    CTok.amt overdue_amount,
    CTok.lit "\n3. Emphasize that:\n- Late payments severely impact their CIBIL score\n- A low CIBIL score will affect their future loan eligibility\n- This may impact their ability to get credit cards, loans, or mortgages\n4. Get a firm commitment on a repayment date and amount\nBe firm but professional. Use pauses by inserting \"-\" where needed. Use two question marks for emphasis.\nIf the customer tries to avoid committing to a date, remind them about the CIBIL score impact.\nStart by introducing yourself and confirming you're speaking with ",
    CTok.name customer_name,
    CTok.lit "." ]

/-- Tokenized content of the closing system message appended by
`save_repayment_date` after a successful store write. -/
def closingContent (d : String) (a : ℚ) : List CTok :=
  [ CTok.lit "Thank the customer for their commitment to pay ₹",
    CTok.amt a,
    CTok.lit " by ",
    CTok.date d,
    CTok.lit ". Then:\n1. Clearly restate their commitment to pay ₹",
    CTok.amt a,
    CTok.lit " by ",
    CTok.date d,
    CTok.lit "\n2. Remind them that keeping this commitment is crucial for their CIBIL score\n3. Mention that failing to pay by ",
    CTok.date d,
    CTok.lit " may result in further action\n4. End the call professionally and courteously\nKeep your closing brief but firm." ]

/-- The single tool schema installed by the constructor via
`context.set_tools([...])`. -/
def saveRepaymentDateTool : ToolSchema :=
  ⟨"function",
   ⟨"save_repayment_date",
    "Save the promised repayment date from the customer",
    [ ⟨"repayment_date", "string", "The date the customer promises to pay, in YYYY-MM-DD format"⟩,
      ⟨"amount", "number", "The amount the customer promises to pay"⟩ ],
    ["repayment_date", "amount"]⟩⟩

/-- The per-call handler state: the two fields `__init__` stores on `self`. -/
structure CollectionProcessor where
  customer_id : String
  overdue_amount : ℚ
deriving DecidableEq, Repr

/-- Result of running the constructor: the processor, the mutated context and
the effect trace. -/
structure InitResult where
  proc : CollectionProcessor
  ctx : OpenAILLMContext
  trace : List Event
deriving DecidableEq, Repr

/-- `CollectionProcessor.__init__`: stores `customer_id` and
`overdue_amount`, appends the system prompt with `add_message`, installs the
single tool schema with `set_tools`.  No store or network access. -/
def CollectionProcessor.init (ctx : OpenAILLMContext) (customer_id customer_name : String)
    (overdue_amount : ℚ) : InitResult :=
  let ctx1 := ctx.add_message ⟨Role.system, openingContent customer_name overdue_amount⟩
  let ctx2 := ctx1.set_tools [saveRepaymentDateTool]
  ⟨⟨customer_id, overdue_amount⟩, ctx2, [Event.ctxAddMessage, Event.ctxSetTools]⟩

/-- The `args` dict of a tool invocation; a `none` field models a missing
key (Python raises `KeyError` on access). -/
structure FnArgs where
  repayment_date : Option String
  amount : Option ℚ
deriving DecidableEq, Repr

/-- Errors that propagate out of `save_repayment_date`: a missing args key
(`KeyError` raised while building the update payload, before any network
call), or a failed Firestore `update` (document not found). -/
inductive HandlerErr
| keyError
| writeFailure
deriving DecidableEq, Repr

/-- Result of one tool invocation: `error = none` on success; on error the
returned store and context are the unchanged inputs (the Python exception
propagates before the corresponding mutations). -/
structure InvokeResult where
  error : Option HandlerErr
  store : Store
  ctx : OpenAILLMContext
  trace : List Event
deriving DecidableEq, Repr

/-- `CollectionProcessor.save_repayment_date`, in statement order: build the
update payload from `args` (KeyError aborts everything if a key is missing),
perform the Firestore `update` (failure aborts the rest), append the closing
system message, clear the tool list, push the updated context downstream.
`t` is the server time assigned to the write.  No validation of date format
or amount positivity is performed. -/
def CollectionProcessor.save_repayment_date (p : CollectionProcessor) (args : FnArgs)
    (st : Store) (ctx : OpenAILLMContext) (t : ℕ) : InvokeResult :=
  match args.repayment_date, args.amount with
  | some d, some a =>
    match st.updateDoc p.customer_id (applyCommitmentUpdate d a p.overdue_amount t) with
    | none => ⟨some HandlerErr.writeFailure, st, ctx, []⟩
    | some st2 =>
      let ctx2 := ctx.add_message ⟨Role.system, closingContent d a⟩
      let ctx3 := ctx2.set_tools []
      ⟨none, st2, ctx3,
       [Event.firestoreUpdate p.customer_id, Event.ctxAddMessage, Event.ctxSetTools,
        Event.pushDownstream]⟩
  | _, _ => ⟨some HandlerErr.keyError, st, ctx, []⟩

/-- The customer id hard-coded in `main`. -/
def customer_id : String := "chad_bailey"

/-- The customer display name hard-coded in `main`. -/
def customer_name : String := "Chad Bailey"

/-- The overdue amount hard-coded in `main`. -/
def overdue_amount : ℚ := 25000

/-- Result of the connect handler: the freshly constructed processor, the
reset-and-reseeded context, and the effect trace. -/
structure ConnectResult where
  proc : CollectionProcessor
  ctx : OpenAILLMContext
  trace : List Event
deriving DecidableEq, Repr

/-- `on_client_connected`: clears `context.messages`, constructs a new
`CollectionProcessor` bound to the hard-coded customer constants, and queues
an `OpenAILLMContextFrame`.  The `client` handle is received but never used
to choose the customer. -/
def on_client_connected (client : String) (ctx : OpenAILLMContext) : ConnectResult :=
  let _ := client
  let ctx0 := ctx.messages_clear
  let r := CollectionProcessor.init ctx0 customer_id customer_name overdue_amount
  ⟨r.proc, r.ctx, Event.ctxClearMessages :: r.trace ++ [Event.queueContextFrame]⟩

/-- `on_client_disconnected`: queues an `EndFrame` and nothing else. -/
def on_client_disconnected : List Event :=
  [Event.queueEndFrame]

/-- Whether the save-repayment-date tool is present in the active tool list;
per the tool-call boundary contract the model can only invoke a tool whose
schema is active, so this guards dispatch in the call semantics below. -/
def toolEnabledB (c : OpenAILLMContext) : Bool :=
  c.tools.any fun s => s.function.name == "save_repayment_date"

/-- In-call state: the conversation context and the record store. -/
structure CallState where
  ctx : OpenAILLMContext
  store : Store
deriving DecidableEq, Repr

/-- One in-call action after connect: a user or assistant turn appending a
message, or the model invoking the tool with some arguments at some server
time. -/
inductive CallAct
| userMsg (c : List CTok)
| assistantMsg (c : List CTok)
| invokeTool (args : FnArgs) (t : ℕ)
deriving DecidableEq, Repr

/-- One step of in-call dispatch.  Tool invocation is only dispatched when
the schema is in the active tool list (the upstream contract: the model sees
only active tools); otherwise the attempt is rejected and nothing happens. -/
def stepCall (p : CollectionProcessor) (s : CallState) : CallAct → CallState × List Event
| CallAct.userMsg c => (⟨s.ctx.add_message ⟨Role.user, c⟩, s.store⟩, [Event.ctxAddMessage])
| CallAct.assistantMsg c =>
  (⟨s.ctx.add_message ⟨Role.assistant, c⟩, s.store⟩, [Event.ctxAddMessage])
| CallAct.invokeTool args t =>
  if toolEnabledB s.ctx then
    let r := p.save_repayment_date args s.store s.ctx t
    (⟨r.ctx, r.store⟩, r.trace)
  else (s, [])

/-- Run a sequence of in-call actions, collecting the effect trace. -/
def runCall (p : CollectionProcessor) (s : CallState) : List CallAct → CallState × List Event
| [] => (s, [])
| a :: rest =>
  let r1 := stepCall p s a
  let r2 := runCall p r1.1 rest
  (r2.1, r1.2 ++ r2.2)

/-! Helper lemmas shared by the claim theorems. -/

/-- Looking up a key after `setDoc` on that key returns the new document,
provided the key was present. -/
theorem lookup_setDoc (st : Store) (cid : String) (d x : UserDoc)
    (h : st.lookup cid = some x) : (st.setDoc cid d).lookup cid = some d := by
  induction st with
  | nil => simp [Store.lookup] at h
  | cons kv rest ih =>
    obtain ⟨k, v⟩ := kv
    by_cases hk : k = cid
    · simp [Store.setDoc, Store.lookup, hk]
    · simp only [Store.setDoc, Store.lookup, hk, if_false, if_neg hk] at h ⊢
      exact ih h

/-- `add_message` leaves the tool list unchanged. -/
theorem add_message_tools (c : OpenAILLMContext) (m : Message) :
    (c.add_message m).tools = c.tools := rfl

/-- A step taken while the tool is disabled keeps it disabled and performs
no store write. -/
theorem stepCall_disabled (p : CollectionProcessor) (s : CallState) (a : CallAct)
    (h : toolEnabledB s.ctx = false) :
    toolEnabledB (stepCall p s a).1.ctx = false ∧
    hasFirestoreWrite (stepCall p s a).2 = false := by
  cases a with
  | userMsg c =>
    refine ⟨?_, by simp [stepCall, hasFirestoreWrite, isFirestoreWrite]⟩
    simpa [stepCall, toolEnabledB, OpenAILLMContext.add_message] using h
  | assistantMsg c =>
    refine ⟨?_, by simp [stepCall, hasFirestoreWrite, isFirestoreWrite]⟩
    simpa [stepCall, toolEnabledB, OpenAILLMContext.add_message] using h
  | invokeTool args t =>
    simp [stepCall, h, hasFirestoreWrite]

/-- A whole run started with the tool disabled keeps it disabled and never
writes to the store. -/
theorem runCall_disabled (p : CollectionProcessor) (acts : List CallAct) :
    ∀ s : CallState, toolEnabledB s.ctx = false →
    toolEnabledB (runCall p s acts).1.ctx = false ∧
    hasFirestoreWrite (runCall p s acts).2 = false := by
  induction acts with
  | nil => intro s h; simpa [runCall, hasFirestoreWrite] using h
  | cons a rest ih =>
    intro s h
    have h1 := stepCall_disabled p s a h
    have h2 := ih (stepCall p s a).1 h1.1
    refine ⟨by simpa [runCall] using h2.1, ?_⟩
    simp only [runCall, hasFirestoreWrite, List.any_append, Bool.or_eq_false_iff]
    exact ⟨h1.2, h2.2⟩

/-! Claim theorems. -/

/-- C1: invoking `save_repayment_date` with arguments `{repayment_date: d,
amount: a}` on a handler constructed with overdue amount `o` performs a
single store update for the customer that sets `promised_repayment_date = d`,
`promised_amount = a`, `overdue_amount = o` (the constructor snapshot),
`contact_type = "phone_call"`, `commitment_status = "pending"`,
server-assigned `commitment_made_at` and `last_contact`, and appends exactly
one `payment_history` entry with the same date, amount and status;
afterwards the active tool set is empty and exactly one new system message,
referencing both `d` and `a`, has been appended. -/
theorem c1_invocation_effects (p : CollectionProcessor) (d : String) (a : ℚ)
    (st : Store) (ctx : OpenAILLMContext) (t : ℕ) (doc : UserDoc)
    (hdoc : st.lookup p.customer_id = some doc) :
    (p.save_repayment_date ⟨some d, some a⟩ st ctx t).error = none ∧
    (p.save_repayment_date ⟨some d, some a⟩ st ctx t).store.lookup p.customer_id =
      some ⟨some d, some a, some p.overdue_amount, some t, some t, some "phone_call",
            some "pending", doc.payment_history ++ [⟨t, d, a, "pending"⟩]⟩ ∧
    countWrites (p.save_repayment_date ⟨some d, some a⟩ st ctx t).trace = 1 ∧
    (p.save_repayment_date ⟨some d, some a⟩ st ctx t).ctx.tools = [] ∧
    (p.save_repayment_date ⟨some d, some a⟩ st ctx t).ctx.messages =
      ctx.messages ++ [⟨Role.system, closingContent d a⟩] ∧
    CTok.date d ∈ closingContent d a ∧ CTok.amt a ∈ closingContent d a := by
  have hup : st.updateDoc p.customer_id (applyCommitmentUpdate d a p.overdue_amount t) =
      some (st.setDoc p.customer_id (applyCommitmentUpdate d a p.overdue_amount t doc)) := by
    simp [Store.updateDoc, hdoc]
  refine ⟨?_, ?_, ?_, ?_, ?_, ?_, ?_⟩ <;>
    simp [CollectionProcessor.save_repayment_date, hup, OpenAILLMContext.add_message,
          OpenAILLMContext.set_tools, countWrites, isFirestoreWrite, closingContent,
          lookup_setDoc st p.customer_id _ doc hdoc, applyCommitmentUpdate]

/-- C1 witness: the effects at the spec's concrete input (date 2025-03-01,
amount 500, overdue amount 25000, customer chad_bailey, server time 7). -/
theorem c1_witness :
    ((⟨customer_id, overdue_amount⟩ : CollectionProcessor).save_repayment_date
        ⟨some "2025-03-01", some 500⟩ [(customer_id, emptyDoc)] ⟨[], []⟩ 7).error = none ∧
    ((⟨customer_id, overdue_amount⟩ : CollectionProcessor).save_repayment_date
        ⟨some "2025-03-01", some 500⟩ [(customer_id, emptyDoc)] ⟨[], []⟩ 7).store.lookup
        (⟨customer_id, overdue_amount⟩ : CollectionProcessor).customer_id =
      some ⟨some "2025-03-01", some 500, some (⟨customer_id, overdue_amount⟩ :
            CollectionProcessor).overdue_amount, some 7, some 7, some "phone_call",
            some "pending", emptyDoc.payment_history ++ [⟨7, "2025-03-01", 500, "pending"⟩]⟩ ∧
    countWrites ((⟨customer_id, overdue_amount⟩ : CollectionProcessor).save_repayment_date
        ⟨some "2025-03-01", some 500⟩ [(customer_id, emptyDoc)] ⟨[], []⟩ 7).trace = 1 ∧
    ((⟨customer_id, overdue_amount⟩ : CollectionProcessor).save_repayment_date
        ⟨some "2025-03-01", some 500⟩ [(customer_id, emptyDoc)] ⟨[], []⟩ 7).ctx.tools = [] ∧
    ((⟨customer_id, overdue_amount⟩ : CollectionProcessor).save_repayment_date
        ⟨some "2025-03-01", some 500⟩ [(customer_id, emptyDoc)] ⟨[], []⟩ 7).ctx.messages =
      (⟨[], []⟩ : OpenAILLMContext).messages ++
        [⟨Role.system, closingContent "2025-03-01" 500⟩] ∧
    CTok.date "2025-03-01" ∈ closingContent "2025-03-01" 500 ∧
    CTok.amt 500 ∈ closingContent "2025-03-01" 500 :=
  c1_invocation_effects ⟨customer_id, overdue_amount⟩ "2025-03-01" 500
    [(customer_id, emptyDoc)] ⟨[], []⟩ 7 emptyDoc (by decide)

/-- C3: when the store write fails (the customer document is absent, the
failure mode Firestore `update` defines), the error is not swallowed: it
surfaces in the result, no closing system message is appended, the tool list
is unchanged, the store is unchanged, and the pipeline is not resumed (the
trace is empty, in particular no downstream push). -/
theorem c3_write_failure_surfaces (p : CollectionProcessor) (d : String) (a : ℚ)
    (st : Store) (ctx : OpenAILLMContext) (t : ℕ)
    (h : st.lookup p.customer_id = none) :
    (p.save_repayment_date ⟨some d, some a⟩ st ctx t).error =
      some HandlerErr.writeFailure ∧
    (p.save_repayment_date ⟨some d, some a⟩ st ctx t).ctx = ctx ∧
    (p.save_repayment_date ⟨some d, some a⟩ st ctx t).store = st ∧
    (p.save_repayment_date ⟨some d, some a⟩ st ctx t).trace = [] ∧
    Event.pushDownstream ∉ (p.save_repayment_date ⟨some d, some a⟩ st ctx t).trace := by
  have hup : st.updateDoc p.customer_id (applyCommitmentUpdate d a p.overdue_amount t) =
      none := by simp [Store.updateDoc, h]
  simp [CollectionProcessor.save_repayment_date, hup]

/-- C3 witness: the write failure on an empty store. -/
theorem c3_witness :
    ((⟨customer_id, overdue_amount⟩ : CollectionProcessor).save_repayment_date
        ⟨some "2025-03-01", some 500⟩ [] ⟨[], []⟩ 7).error =
      some HandlerErr.writeFailure ∧
    ((⟨customer_id, overdue_amount⟩ : CollectionProcessor).save_repayment_date
        ⟨some "2025-03-01", some 500⟩ [] ⟨[], []⟩ 7).ctx = ⟨[], []⟩ ∧
    ((⟨customer_id, overdue_amount⟩ : CollectionProcessor).save_repayment_date
        ⟨some "2025-03-01", some 500⟩ [] ⟨[], []⟩ 7).store = [] ∧
    ((⟨customer_id, overdue_amount⟩ : CollectionProcessor).save_repayment_date
        ⟨some "2025-03-01", some 500⟩ [] ⟨[], []⟩ 7).trace = [] ∧
    Event.pushDownstream ∉ ((⟨customer_id, overdue_amount⟩ :
        CollectionProcessor).save_repayment_date
        ⟨some "2025-03-01", some 500⟩ [] ⟨[], []⟩ 7).trace :=
  c3_write_failure_surfaces ⟨customer_id, overdue_amount⟩ "2025-03-01" 500 [] ⟨[], []⟩ 7
    (by decide)

/-- C4: for every valid (customer id, name, overdue amount > 0) triple,
construction appends exactly one system message (so a fresh context ends up
with exactly one message, a system one), installs exactly one tool schema
named `save_repayment_date` whose required parameters are `repayment_date`
and `amount`, and performs no network or storage access (the trace has only
the two context mutations and no store write). -/
theorem c4_construction (ctx : OpenAILLMContext) (cid nm : String) (o : ℚ)
    (_ho : 0 < o) :
    (CollectionProcessor.init ctx cid nm o).ctx.messages =
      ctx.messages ++ [⟨Role.system, openingContent nm o⟩] ∧
    (ctx.messages = [] → (CollectionProcessor.init ctx cid nm o).ctx.messages =
      [⟨Role.system, openingContent nm o⟩]) ∧
    (CollectionProcessor.init ctx cid nm o).ctx.tools = [saveRepaymentDateTool] ∧
    saveRepaymentDateTool.function.name = "save_repayment_date" ∧
    saveRepaymentDateTool.function.required = ["repayment_date", "amount"] ∧
    (CollectionProcessor.init ctx cid nm o).trace =
      [Event.ctxAddMessage, Event.ctxSetTools] ∧
    hasFirestoreWrite (CollectionProcessor.init ctx cid nm o).trace = false := by
  refine ⟨rfl, ?_, rfl, rfl, rfl, rfl, rfl⟩
  intro h
  simp [CollectionProcessor.init, OpenAILLMContext.add_message,
        OpenAILLMContext.set_tools, h]

/-- C4 witness: construction at the concrete triple from `main`. -/
theorem c4_witness :
    (CollectionProcessor.init ⟨[], []⟩ customer_id customer_name overdue_amount).ctx.messages =
      (⟨[], []⟩ : OpenAILLMContext).messages ++
        [⟨Role.system, openingContent customer_name overdue_amount⟩] ∧
    ((⟨[], []⟩ : OpenAILLMContext).messages = [] →
      (CollectionProcessor.init ⟨[], []⟩ customer_id customer_name
        overdue_amount).ctx.messages =
      [⟨Role.system, openingContent customer_name overdue_amount⟩]) ∧
    (CollectionProcessor.init ⟨[], []⟩ customer_id customer_name
      overdue_amount).ctx.tools = [saveRepaymentDateTool] ∧
    saveRepaymentDateTool.function.name = "save_repayment_date" ∧
    saveRepaymentDateTool.function.required = ["repayment_date", "amount"] ∧
    (CollectionProcessor.init ⟨[], []⟩ customer_id customer_name overdue_amount).trace =
      [Event.ctxAddMessage, Event.ctxSetTools] ∧
    hasFirestoreWrite (CollectionProcessor.init ⟨[], []⟩ customer_id customer_name
      overdue_amount).trace = false :=
  c4_construction ⟨[], []⟩ customer_id customer_name overdue_amount
    (by norm_num [overdue_amount])

/-- C2: after one successful tool invocation the active tool list is empty,
and stays empty for the rest of the call; since dispatch only reaches the
handler while the schema is active (the upstream tool-call contract), no
further invocation and no second store write can occur in any continuation
of the call. -/
theorem c2_single_use (p : CollectionProcessor) (args : FnArgs) (st : Store)
    (ctx : OpenAILLMContext) (t : ℕ) (acts : List CallAct)
    (h : (p.save_repayment_date args st ctx t).error = none) :
    (p.save_repayment_date args st ctx t).ctx.tools = [] ∧
    toolEnabledB
      (runCall p ⟨(p.save_repayment_date args st ctx t).ctx,
                  (p.save_repayment_date args st ctx t).store⟩ acts).1.ctx = false ∧
    hasFirestoreWrite
      (runCall p ⟨(p.save_repayment_date args st ctx t).ctx,
                  (p.save_repayment_date args st ctx t).store⟩ acts).2 = false := by
  obtain ⟨rd, am⟩ := args
  cases rd with
  | none => simp [CollectionProcessor.save_repayment_date] at h
  | some d =>
    cases am with
    | none => simp [CollectionProcessor.save_repayment_date] at h
    | some a =>
      cases hup : st.updateDoc p.customer_id (applyCommitmentUpdate d a p.overdue_amount t) with
      | none => simp [CollectionProcessor.save_repayment_date, hup] at h
      | some st2 =>
        have htools : ((p.save_repayment_date ⟨some d, some a⟩ st ctx t)).ctx.tools = [] := by
          simp [CollectionProcessor.save_repayment_date, hup, OpenAILLMContext.set_tools]
        have hdis : toolEnabledB (p.save_repayment_date ⟨some d, some a⟩ st ctx t).ctx =
            false := by
          simp [toolEnabledB, htools]
        have hrun := runCall_disabled p acts
          ⟨(p.save_repayment_date ⟨some d, some a⟩ st ctx t).ctx,
           (p.save_repayment_date ⟨some d, some a⟩ st ctx t).store⟩ hdis
        exact ⟨htools, hrun.1, hrun.2⟩

/-- C2 witness: a successful invocation followed by a user turn and a second
invocation attempt; the tool stays disabled and no second write happens. -/
theorem c2_witness :
    ((⟨customer_id, overdue_amount⟩ : CollectionProcessor).save_repayment_date
        ⟨some "2025-03-01", some 500⟩ [(customer_id, emptyDoc)] ⟨[], []⟩ 7).ctx.tools = [] ∧
    toolEnabledB
      (runCall ⟨customer_id, overdue_amount⟩
        ⟨((⟨customer_id, overdue_amount⟩ : CollectionProcessor).save_repayment_date
            ⟨some "2025-03-01", some 500⟩ [(customer_id, emptyDoc)] ⟨[], []⟩ 7).ctx,
         ((⟨customer_id, overdue_amount⟩ : CollectionProcessor).save_repayment_date
            ⟨some "2025-03-01", some 500⟩ [(customer_id, emptyDoc)] ⟨[], []⟩ 7).store⟩
        [CallAct.userMsg [CTok.lit "ok"],
         CallAct.invokeTool ⟨some "2025-04-01", some 900⟩ 9]).1.ctx = false ∧
    hasFirestoreWrite
      (runCall ⟨customer_id, overdue_amount⟩
        ⟨((⟨customer_id, overdue_amount⟩ : CollectionProcessor).save_repayment_date
            ⟨some "2025-03-01", some 500⟩ [(customer_id, emptyDoc)] ⟨[], []⟩ 7).ctx,
         ((⟨customer_id, overdue_amount⟩ : CollectionProcessor).save_repayment_date
            ⟨some "2025-03-01", some 500⟩ [(customer_id, emptyDoc)] ⟨[], []⟩ 7).store⟩
        [CallAct.userMsg [CTok.lit "ok"],
         CallAct.invokeTool ⟨some "2025-04-01", some 900⟩ 9]).2 = false :=
  c2_single_use ⟨customer_id, overdue_amount⟩ ⟨some "2025-03-01", some 500⟩
    [(customer_id, emptyDoc)] ⟨[], []⟩ 7
    [CallAct.userMsg [CTok.lit "ok"],
     CallAct.invokeTool ⟨some "2025-04-01", some 900⟩ 9] (by decide)

/-- C5 counterexample: the clearing that the connect handler performs
(`context.messages.clear()`) does not clear `activeTools` — on a context
holding one message and the installed tool schema, the tool list is
untouched (and nonempty) after the clear. -/
theorem c5_counterexample :
    ((⟨[⟨Role.user, [CTok.lit "hi"]⟩], [saveRepaymentDateTool]⟩ :
      OpenAILLMContext).messages_clear).tools ≠ [] := by
  simp [OpenAILLMContext.messages_clear]

/-- C5 (amended): on every connect event the message history is cleared
before the new system message is appended — the post-connect context carries
exactly the one fresh system message, with no leakage of prior-call messages
— but the clear itself leaves `activeTools` untouched; the tool set is
instead replaced by the subsequent handler construction, and the one context
object is reused (reset) across calls. -/
theorem c5_connect_reset (client : String) (ctx : OpenAILLMContext) :
    (ctx.messages_clear).messages = [] ∧
    (ctx.messages_clear).tools = ctx.tools ∧
    (on_client_connected client ctx).ctx.messages =
      [⟨Role.system, openingContent customer_name overdue_amount⟩] ∧
    (on_client_connected client ctx).ctx.tools = [saveRepaymentDateTool] := by
  refine ⟨rfl, rfl, ?_, rfl⟩
  simp [on_client_connected, CollectionProcessor.init, OpenAILLMContext.messages_clear,
        OpenAILLMContext.add_message, OpenAILLMContext.set_tools]

/-- C5 witness: the amended connect-reset facts on a dirty context left over
from a previous call. -/
theorem c5_witness :
    ((⟨[⟨Role.assistant, [CTok.lit "bye"]⟩], []⟩ :
        OpenAILLMContext).messages_clear).messages = [] ∧
    ((⟨[⟨Role.assistant, [CTok.lit "bye"]⟩], []⟩ :
        OpenAILLMContext).messages_clear).tools =
      (⟨[⟨Role.assistant, [CTok.lit "bye"]⟩], []⟩ : OpenAILLMContext).tools ∧
    (on_client_connected "client-2" ⟨[⟨Role.assistant, [CTok.lit "bye"]⟩], []⟩).ctx.messages =
      [⟨Role.system, openingContent customer_name overdue_amount⟩] ∧
    (on_client_connected "client-2" ⟨[⟨Role.assistant, [CTok.lit "bye"]⟩], []⟩).ctx.tools =
      [saveRepaymentDateTool] :=
  c5_connect_reset "client-2" ⟨[⟨Role.assistant, [CTok.lit "bye"]⟩], []⟩

/-- C6 counterexample: a non-positive amount is not rejected — invoking the
tool with amount −5 succeeds and persists the commitment write (the handler
performs no positivity validation), contradicting the claim that no
Commitment Record write occurs on a non-positive amount. -/
theorem c6_counterexample :
    ((⟨customer_id, overdue_amount⟩ : CollectionProcessor).save_repayment_date
        ⟨some "2025-03-01", some (-5)⟩ [(customer_id, emptyDoc)] ⟨[], []⟩ 7).error = none ∧
    hasFirestoreWrite
      ((⟨customer_id, overdue_amount⟩ : CollectionProcessor).save_repayment_date
        ⟨some "2025-03-01", some (-5)⟩ [(customer_id, emptyDoc)] ⟨[], []⟩ 7).trace = true ∧
    ((⟨customer_id, overdue_amount⟩ : CollectionProcessor).save_repayment_date
        ⟨some "2025-03-01", some (-5)⟩ [(customer_id, emptyDoc)] ⟨[], []⟩ 7).store.lookup
        customer_id =
      some ⟨some "2025-03-01", some (-5), some overdue_amount, some 7, some 7,
            some "phone_call", some "pending", [⟨7, "2025-03-01", -5, "pending"⟩]⟩ := by
  refine ⟨?_, ?_, ?_⟩ <;> decide

/-- C6 (amended): if the tool is invoked with a missing `repayment_date` or
`amount`, the handler raises (KeyError) while building the update payload,
before any store access: no Commitment Record write occurs, the context and
tool list are untouched, and the failure surfaces so the turn fails.  A
non-positive amount, however, is not validated and is persisted as given. -/
theorem c6_missing_args_no_write (p : CollectionProcessor) (args : FnArgs)
    (st : Store) (ctx : OpenAILLMContext) (t : ℕ)
    (h : args.repayment_date = none ∨ args.amount = none) :
    (p.save_repayment_date args st ctx t).error = some HandlerErr.keyError ∧
    (p.save_repayment_date args st ctx t).store = st ∧
    (p.save_repayment_date args st ctx t).ctx = ctx ∧
    (p.save_repayment_date args st ctx t).trace = [] := by
  obtain ⟨rd, am⟩ := args
  cases rd <;> cases am <;> simp_all [CollectionProcessor.save_repayment_date]

/-- C6 witness: the missing-arguments failure with only an amount given. -/
theorem c6_witness :
    ((⟨customer_id, overdue_amount⟩ : CollectionProcessor).save_repayment_date
        ⟨none, some 500⟩ [(customer_id, emptyDoc)] ⟨[], []⟩ 7).error =
      some HandlerErr.keyError ∧
    ((⟨customer_id, overdue_amount⟩ : CollectionProcessor).save_repayment_date
        ⟨none, some 500⟩ [(customer_id, emptyDoc)] ⟨[], []⟩ 7).store =
      [(customer_id, emptyDoc)] ∧
    ((⟨customer_id, overdue_amount⟩ : CollectionProcessor).save_repayment_date
        ⟨none, some 500⟩ [(customer_id, emptyDoc)] ⟨[], []⟩ 7).ctx = ⟨[], []⟩ ∧
    ((⟨customer_id, overdue_amount⟩ : CollectionProcessor).save_repayment_date
        ⟨none, some 500⟩ [(customer_id, emptyDoc)] ⟨[], []⟩ 7).trace = [] :=
  c6_missing_args_no_write ⟨customer_id, overdue_amount⟩ ⟨none, some 500⟩
    [(customer_id, emptyDoc)] ⟨[], []⟩ 7 (Or.inl rfl)

/-- C7: the downstream push (delivery of the closing script) happens only
after the store write and the closing-instruction append — on success the
trace is exactly write, append, tool-clear, push, so the push is last and
strictly after the write; on any failure there is no push at all. -/
theorem c7_push_after_write (p : CollectionProcessor) (args : FnArgs) (st : Store)
    (ctx : OpenAILLMContext) (t : ℕ) :
    ((p.save_repayment_date args st ctx t).error = none ∧
     (p.save_repayment_date args st ctx t).trace =
       [Event.firestoreUpdate p.customer_id, Event.ctxAddMessage, Event.ctxSetTools,
        Event.pushDownstream]) ∨
    ((p.save_repayment_date args st ctx t).error ≠ none ∧
     (p.save_repayment_date args st ctx t).trace = []) := by
  obtain ⟨rd, am⟩ := args
  cases rd with
  | none => right; simp [CollectionProcessor.save_repayment_date]
  | some d =>
    cases am with
    | none => right; simp [CollectionProcessor.save_repayment_date]
    | some a =>
      cases hup : st.updateDoc p.customer_id (applyCommitmentUpdate d a p.overdue_amount t) with
      | none => right; simp [CollectionProcessor.save_repayment_date, hup]
      | some st2 => left; simp [CollectionProcessor.save_repayment_date, hup]

/-- C7 witness: on the concrete successful invocation the trace is the
write–append–clear–push sequence. -/
theorem c7_witness :
    (((⟨customer_id, overdue_amount⟩ : CollectionProcessor).save_repayment_date
        ⟨some "2025-03-01", some 500⟩ [(customer_id, emptyDoc)] ⟨[], []⟩ 7).error = none ∧
     ((⟨customer_id, overdue_amount⟩ : CollectionProcessor).save_repayment_date
        ⟨some "2025-03-01", some 500⟩ [(customer_id, emptyDoc)] ⟨[], []⟩ 7).trace =
       [Event.firestoreUpdate (⟨customer_id, overdue_amount⟩ :
          CollectionProcessor).customer_id,
        Event.ctxAddMessage, Event.ctxSetTools, Event.pushDownstream]) ∨
    (((⟨customer_id, overdue_amount⟩ : CollectionProcessor).save_repayment_date
        ⟨some "2025-03-01", some 500⟩ [(customer_id, emptyDoc)] ⟨[], []⟩ 7).error ≠ none ∧
     ((⟨customer_id, overdue_amount⟩ : CollectionProcessor).save_repayment_date
        ⟨some "2025-03-01", some 500⟩ [(customer_id, emptyDoc)] ⟨[], []⟩ 7).trace = []) :=
  c7_push_after_write ⟨customer_id, overdue_amount⟩ ⟨some "2025-03-01", some 500⟩
    [(customer_id, emptyDoc)] ⟨[], []⟩ 7

/-- C8: in a call where the tool is never invoked, no store write occurs:
the connect handler only clears the messages, constructs the handler (two
context mutations) and queues the context frame, and the disconnect handler
only queues a terminal frame — neither trace contains a store write. -/
theorem c8_no_write_without_invocation (client : String) (ctx : OpenAILLMContext) :
    (on_client_connected client ctx).trace =
      [Event.ctxClearMessages, Event.ctxAddMessage, Event.ctxSetTools,
       Event.queueContextFrame] ∧
    on_client_disconnected = [Event.queueEndFrame] ∧
    hasFirestoreWrite ((on_client_connected client ctx).trace ++
      on_client_disconnected) = false := by
  refine ⟨rfl, rfl, ?_⟩
  simp [on_client_connected, CollectionProcessor.init, on_client_disconnected,
        hasFirestoreWrite, isFirestoreWrite]

/-- C8 witness: the connect–disconnect traces on an empty context. -/
theorem c8_witness :
    (on_client_connected "client-1" ⟨[], []⟩).trace =
      [Event.ctxClearMessages, Event.ctxAddMessage, Event.ctxSetTools,
       Event.queueContextFrame] ∧
    on_client_disconnected = [Event.queueEndFrame] ∧
    hasFirestoreWrite ((on_client_connected "client-1" ⟨[], []⟩).trace ++
      on_client_disconnected) = false :=
  c8_no_write_without_invocation "client-1" ⟨[], []⟩

/-- C9: every connect event binds the call to the hard-coded constants —
customer id "chad_bailey", overdue amount 25000 — independently of the
connecting client handle, and every store write the resulting handler
performs targets the "chad_bailey" document. -/
theorem c9_fixed_customer (client client2 : String) (ctx : OpenAILLMContext)
    (args : FnArgs) (st : Store) (c : OpenAILLMContext) (t : ℕ) :
    (on_client_connected client ctx).proc = ⟨"chad_bailey", 25000⟩ ∧
    on_client_connected client ctx = on_client_connected client2 ctx ∧
    writesOnlyTo "chad_bailey"
      ((on_client_connected client ctx).proc.save_repayment_date args st c t).trace =
      true := by
  refine ⟨rfl, rfl, ?_⟩
  have hproc : (on_client_connected client ctx).proc =
      ⟨"chad_bailey", 25000⟩ := rfl
  rw [hproc]
  obtain ⟨rd, am⟩ := args
  cases rd with
  | none => simp [CollectionProcessor.save_repayment_date, writesOnlyTo]
  | some d =>
    cases am with
    | none => simp [CollectionProcessor.save_repayment_date, writesOnlyTo]
    | some a =>
      cases hup : st.updateDoc "chad_bailey"
          (applyCommitmentUpdate d a (25000 : ℚ) t) with
      | none => simp [CollectionProcessor.save_repayment_date, hup, writesOnlyTo]
      | some st2 => simp [CollectionProcessor.save_repayment_date, hup, writesOnlyTo]

/-- C9 witness: the fixed binding at concrete handles and a concrete
invocation. -/
theorem c9_witness :
    (on_client_connected "client-a" ⟨[], []⟩).proc = ⟨"chad_bailey", 25000⟩ ∧
    on_client_connected "client-a" ⟨[], []⟩ = on_client_connected "client-b" ⟨[], []⟩ ∧
    writesOnlyTo "chad_bailey"
      ((on_client_connected "client-a" ⟨[], []⟩).proc.save_repayment_date
        ⟨some "2025-03-01", some 500⟩ [(customer_id, emptyDoc)] ⟨[], []⟩ 7).trace =
      true :=
  c9_fixed_customer "client-a" "client-b" ⟨[], []⟩ ⟨some "2025-03-01", some 500⟩
    [(customer_id, emptyDoc)] ⟨[], []⟩ 7

/-- C10: constructing the handler replaces the context's tool list (whatever
it held before, including the empty list left after a consumed tool), so a
new connect event makes the save-repayment-date tool available again:
single-use is per call, not per process. -/
theorem c10_tools_replaced (ctx : OpenAILLMContext) (cid nm : String) (o : ℚ)
    (client : String) :
    (CollectionProcessor.init ctx cid nm o).ctx.tools = [saveRepaymentDateTool] ∧
    (on_client_connected client ctx).ctx.tools = [saveRepaymentDateTool] ∧
    toolEnabledB (on_client_connected client ctx).ctx = true := by
  refine ⟨rfl, rfl, ?_⟩
  simp [toolEnabledB, on_client_connected, CollectionProcessor.init,
        OpenAILLMContext.set_tools, saveRepaymentDateTool]

/-- C10 witness: the tool is available again after a connect on a context
whose tool list was consumed (empty). -/
theorem c10_witness :
    (CollectionProcessor.init ⟨[], []⟩ customer_id customer_name
      overdue_amount).ctx.tools = [saveRepaymentDateTool] ∧
    (on_client_connected "client-1" ⟨[], []⟩).ctx.tools = [saveRepaymentDateTool] ∧
    toolEnabledB (on_client_connected "client-1" ⟨[], []⟩).ctx = true :=
  c10_tools_replaced ⟨[], []⟩ customer_id customer_name overdue_amount "client-1"

end Bot
